import Mathlib

/-!
Shallow embedding of `codex-rs/tui/src/bottom_pane/chat_composer.rs`:
the chat-composer key-event state machine (popup dispatch, two-stage
escape, history integration, popup resynchronization, height layout).

The text-buffer (`tui_textarea::TextArea`), the slash-command popup
(`CommandPopup`) and the history navigator (`ChatComposerHistory`) are
external collaborators whose sources are not part of the unit; they are
modelled from the spec's interface contracts, each marked
`Modelled from the spec:` in its doc comment.  The composer itself
(`ChatComposer` and its methods) is translated directly from the source.
-/

namespace ChatComposerModel

/-- Key identity of a terminal key press (the `tui_textarea::Key` cases the
composer distinguishes, plus a catch-all `null`). -/
inductive Key where
  | char (c : Char)
  | enter
  | esc
  | up
  | down
  | tab
  | backspace
  | left
  | right
  | null
deriving DecidableEq, Repr

/-- A key press with modifier flags, mirroring `tui_textarea::Input` (the
composer converts every incoming `crossterm::event::KeyEvent` into this
form with `key_event.into()`). -/
structure Input where
  key : Key
  ctrl : Bool
  alt : Bool
  shift : Bool
deriving DecidableEq, Repr

/-- A rectangular screen region (`ratatui::layout::Rect`). -/
structure Rect where
  x : Nat
  y : Nat
  width : Nat
  height : Nat
deriving DecidableEq, Repr

/-- Rust's `str::starts_with`, computed on the underlying character
lists so that proofs can evaluate it. -/
def starts_with (s pre : String) : Bool :=
  pre.data.isPrefixOf s.data

/-- Rust's `str::trim_start`: drop leading whitespace. -/
def trim_start (s : String) : String :=
  String.mk (s.data.dropWhile Char.isWhitespace)

/-- Line decomposition of a character list: split at newline characters
(`"a\nb"` gives `["a", "b"]`, the empty list gives `[""]`). -/
def split_lines_chars : List Char → List (List Char)
  | [] => [[]]
  | c :: rest =>
    if c = '\n' then [] :: split_lines_chars rest
    else
      match split_lines_chars rest with
      | [] => [[c]]
      | h :: t => (c :: h) :: t

/-- Line decomposition of a string. -/
def split_lines (s : String) : List String :=
  (split_lines_chars s.data).map String.mk

/-- Rust's `Vec<String>::join(sep)`. -/
def join_with (sep : String) : List String → String
  | [] => ""
  | [s] => s
  | s :: rest => s ++ sep ++ join_with sep rest

/-- Modelled from the spec: the external `TextBuffer` capability
(`tui_textarea::TextArea`, not part of this unit) — "holds lines of text
and a cursor; supports character-level edits, multi-line content,
select all, cut, insert newline, and exposes current content as an
ordered sequence of lines". -/
structure TextArea where
  lines : List String
  cursor_row : Nat
  cursor_col : Nat
  /-- whether a whole-buffer selection (from `select_all`) is active -/
  selection_all : Bool
deriving DecidableEq, Repr

namespace TextArea

/-- Mirrors `TextArea::default()`: one empty line, cursor at the origin. -/
def default : TextArea := { lines := [""], cursor_row := 0, cursor_col := 0, selection_all := false }

/-- Modelled from the spec: the "select all" capability — marks the whole
buffer as selected. -/
def select_all (ta : TextArea) : TextArea :=
  { ta with selection_all := true }

/-- Modelled from the spec: the "cut" capability — removes the selected
text.  After `select_all` this clears the entire buffer; with no active
selection it removes nothing. -/
def cut (ta : TextArea) : TextArea :=
  if ta.selection_all then TextArea.default else ta

/-- The line the cursor is on (empty if out of range). -/
def current_line (ta : TextArea) : String :=
  ta.lines.getD ta.cursor_row ""

/-- Modelled from the spec: the "insert newline" capability — splits the
current line at the cursor column. -/
def insert_newline (ta : TextArea) : TextArea :=
  let line := ta.current_line
  let pre := String.mk (line.data.take ta.cursor_col)
  let post := String.mk (line.data.drop ta.cursor_col)
  { lines := ta.lines.take ta.cursor_row ++ [pre, post] ++ ta.lines.drop (ta.cursor_row + 1)
    cursor_row := ta.cursor_row + 1
    cursor_col := 0
    selection_all := false }

/-- Modelled from the spec: character insertion at the cursor. -/
def insert_char (ta : TextArea) (c : Char) : TextArea :=
  let line := ta.current_line
  let line2 := String.mk (line.data.take ta.cursor_col ++ [c] ++ line.data.drop ta.cursor_col)
  { lines := ta.lines.take ta.cursor_row ++ [line2] ++ ta.lines.drop (ta.cursor_row + 1)
    cursor_row := ta.cursor_row
    cursor_col := ta.cursor_col + 1
    selection_all := false }

/-- Modelled from the spec: deleting the character before the cursor
(no-op at the start of a line, for simplicity of the collaborator model). -/
def delete_char (ta : TextArea) : TextArea :=
  if ta.cursor_col = 0 then { ta with selection_all := false }
  else
    let line := ta.current_line
    let line2 := String.mk (line.data.take (ta.cursor_col - 1) ++ line.data.drop ta.cursor_col)
    { lines := ta.lines.take ta.cursor_row ++ [line2] ++ ta.lines.drop (ta.cursor_row + 1)
      cursor_row := ta.cursor_row
      cursor_col := ta.cursor_col - 1
      selection_all := false }

/-- Modelled from the spec: `insert_str` — inserts a (possibly multi-line)
string at the cursor, splitting it on newlines. -/
def insert_str (ta : TextArea) (s : String) : TextArea :=
  let line := ta.current_line
  let pre := String.mk (line.data.take ta.cursor_col)
  let post := String.mk (line.data.drop ta.cursor_col)
  match split_lines s with
  | [] =>
    { ta with selection_all := false }
  | [p] =>
    { lines := ta.lines.take ta.cursor_row ++ [pre ++ p ++ post] ++ ta.lines.drop (ta.cursor_row + 1)
      cursor_row := ta.cursor_row
      cursor_col := ta.cursor_col + p.data.length
      selection_all := false }
  | p :: rest =>
    let mid := rest.dropLast
    let last := rest.getLastD ""
    { lines := ta.lines.take ta.cursor_row ++ [pre ++ p] ++ mid ++ [last ++ post]
        ++ ta.lines.drop (ta.cursor_row + 1)
      cursor_row := ta.cursor_row + rest.length
      cursor_col := last.data.length
      selection_all := false }

/-- Replace the whole content with `s` (used when a history entry is
applied into the buffer). -/
def set_text (s : String) : TextArea :=
  { lines := split_lines s, cursor_row := 0, cursor_col := 0, selection_all := false }

/-- Modelled from the spec: the generic edit-input capability
(`TextArea::input`) — plain characters insert, Enter inserts a newline,
Backspace deletes, Escape cancels the selection, arrow keys move the
cursor, everything else is ignored. -/
def input (ta : TextArea) (i : Input) : TextArea :=
  match i.key with
  | Key.char c =>
    if i.ctrl || i.alt then { ta with selection_all := false } else ta.insert_char c
  | Key.enter => ta.insert_newline
  | Key.backspace => ta.delete_char
  | Key.esc => { ta with selection_all := false }
  | Key.left =>
    { ta with cursor_col := ta.cursor_col - 1, selection_all := false }
  | Key.right =>
    { ta with cursor_col := ta.cursor_col + 1, selection_all := false }
  | Key.up =>
    { ta with cursor_row := ta.cursor_row - 1, cursor_col := 0, selection_all := false }
  | Key.down =>
    { ta with
        cursor_row := (ta.cursor_row + 1).min (ta.lines.length - 1)
        cursor_col := 0
        selection_all := false }
  | _ => { ta with selection_all := false }

end TextArea

/-- Modelled from the spec: the external `CommandPopup` collaborator —
"given the first line of text, decides whether it represents an
in-progress slash command, filters candidate commands, and supports
up/down selection and committing a selection".  `req` is the number of
rows the popup reports needing for a given area (its own heuristic is
outside this core; we keep it opaque as a function of the area). -/
structure CommandPopup where
  all_commands : List String
  matching : List String
  sel : Option Nat
  req : Rect → Nat

namespace CommandPopup

/-- The built-in slash commands (the concrete list lives in the external
collaborator; a representative sample suffices for the model). -/
def builtin : List String := ["clear", "new", "quit"]

/-- Mirrors `CommandPopup::new()`: fresh popup with no filter applied yet. -/
def new : CommandPopup :=
  { all_commands := builtin, matching := builtin, sel := none, req := fun _ => 1 }

/-- Modelled from the spec: move the selection cursor up. -/
def move_up (p : CommandPopup) : CommandPopup :=
  { p with sel := match p.sel with
      | none => if p.matching.isEmpty then none else some 0
      | some k => some (k - 1) }

/-- Modelled from the spec: move the selection cursor down. -/
def move_down (p : CommandPopup) : CommandPopup :=
  { p with sel := match p.sel with
      | none => if p.matching.isEmpty then none else some 0
      | some k => some ((k + 1).min (p.matching.length - 1)) }

/-- Modelled from the spec: the command currently selected by the popup,
if any. -/
def selected_command (p : CommandPopup) : Option String :=
  match p.sel with
  | none => none
  | some k => p.matching.get? k

/-- Modelled from the spec: refresh the filtered candidate list and the
selection from the first line of composer text. -/
def on_composer_text_change (p : CommandPopup) (line : String) : CommandPopup :=
  let token := (line.data.drop 1).takeWhile (fun c => c ≠ ' ')
  let ms := p.all_commands.filter (fun c => token.isPrefixOf c.data)
  { p with matching := ms
           sel := match p.sel with
             | none => none
             | some k => if ms.isEmpty then none else some (k.min (ms.length - 1)) }

/-- Modelled from the spec: "however many rows the popup itself reports
needing for the given area" (a `u16` in the source, hence the 16-bit
reduction). -/
def calculate_required_height (p : CommandPopup) (area : Rect) : Nat :=
  p.req area % 65536

end CommandPopup

/-- Modelled from the spec: the external `ChatComposerHistory` navigator —
session metadata (`log_id`, `entry_count`), locally recorded submissions,
a navigation cursor, and the offset of the outstanding asynchronous fetch
request. -/
structure ChatComposerHistory where
  log_id : Option Nat
  entry_count : Nat
  local_entries : List String
  cursor : Option Nat
  fetch_offset : Option Nat
deriving DecidableEq, Repr

namespace ChatComposerHistory

/-- Mirrors `ChatComposerHistory::new()`. -/
def new : ChatComposerHistory :=
  { log_id := none, entry_count := 0, local_entries := [], cursor := none, fetch_offset := none }

/-- Modelled from the spec: `set_metadata` replaces the session identifier
and the known entry count. -/
def set_metadata (h : ChatComposerHistory) (logId : Nat) (entryCount : Nat) : ChatComposerHistory :=
  { h with log_id := some logId, entry_count := entryCount }

/-- Modelled from the spec: "should I intercept this navigation key" — a
judgment based on cursor position and buffer emptiness: intercept when
already browsing history or when the buffer is empty. -/
def should_handle_navigation (h : ChatComposerHistory) (ta : TextArea) : Bool :=
  h.cursor.isSome || ta.lines == [""]

/-- Total number of known history entries (cross-session plus local). -/
def total (h : ChatComposerHistory) : Nat :=
  h.entry_count + h.local_entries.length

/-- Modelled from the spec: navigate to the previous (older) entry.
Returns the updated navigator, the updated text area and whether the
event was consumed ("a history entry was available and applied, or an
async fetch was dispatched"). -/
def navigate_up (h : ChatComposerHistory) (ta : TextArea) :
    ChatComposerHistory × TextArea × Bool :=
  let target : Option Nat :=
    match h.cursor with
    | none => if h.total = 0 then none else some (h.total - 1)
    | some k => if k = 0 then none else some (k - 1)
  match target with
  | none => (h, ta, false)
  | some idx =>
    if h.entry_count ≤ idx then
      let text := h.local_entries.getD (idx - h.entry_count) ""
      ({ h with cursor := some idx, fetch_offset := none }, TextArea.set_text text, true)
    else
      ({ h with cursor := some idx, fetch_offset := some idx }, ta, true)

/-- Modelled from the spec: navigate to the next (newer) entry; stepping
past the newest entry leaves browsing mode and empties the buffer. -/
def navigate_down (h : ChatComposerHistory) (ta : TextArea) :
    ChatComposerHistory × TextArea × Bool :=
  match h.cursor with
  | none => (h, ta, false)
  | some k =>
    if h.total ≤ k + 1 then
      ({ h with cursor := none, fetch_offset := none }, TextArea.set_text "", true)
    else if h.entry_count ≤ k + 1 then
      let text := h.local_entries.getD (k + 1 - h.entry_count) ""
      ({ h with cursor := some (k + 1), fetch_offset := none }, TextArea.set_text text, true)
    else
      ({ h with cursor := some (k + 1), fetch_offset := some (k + 1) }, ta, true)

/-- Modelled from the spec: record a freshly submitted entry locally and
reset the navigation cursor. -/
def record_local_submission (h : ChatComposerHistory) (text : String) : ChatComposerHistory :=
  { h with local_entries := h.local_entries ++ [text], cursor := none, fetch_offset := none }

/-- Modelled from the spec: `on_entry_response` — integrate an
asynchronous lookup response.  Ignored (returns "not applied") when the
session identifier no longer matching or the offset no longer matching the
outstanding request; an in-match `none` entry means "no such entry, no
change". -/
def on_entry_response (h : ChatComposerHistory) (logId : Nat) (offset : Nat)
    (entry : Option String) (ta : TextArea) : ChatComposerHistory × TextArea × Bool :=
  if h.log_id = some logId ∧ h.fetch_offset = some offset then
    match entry with
    | some text => ({ h with fetch_offset := none }, TextArea.set_text text, true)
    | none => ({ h with fetch_offset := none }, ta, false)
  else (h, ta, false)

end ChatComposerHistory

/-- Mirrors `InputResult`: result returned when the user interacts with the text
area — `Submitted(String)` or `None`. -/
inductive InputResult where
  | submitted (text : String)
  | none
deriving DecidableEq, Repr

/-- Minimum number of visible text rows inside the textarea
(`MIN_TEXTAREA_ROWS`). -/
def MIN_TEXTAREA_ROWS : Nat := 1

/-- Rows consumed by the border (`BORDER_LINES`). -/
def BORDER_LINES : Nat := 2

/-- The `ChatComposer` aggregate: the text area, the optional command
popup, the history navigator and the escape-arming flag.  `sent_events`
records the commands dispatched to the app layer through
`app_event_tx.send(AppEvent::DispatchCommand(..))`. -/
structure ChatComposer where
  textarea : TextArea
  command_popup : Option CommandPopup
  history : ChatComposerHistory
  escape_armed : Bool
  sent_events : List String

namespace ChatComposer

/-- Mirrors `ChatComposer::new`: empty text area, no popup, fresh history,
escape unarmed. -/
def new : ChatComposer :=
  { textarea := TextArea.default
    command_popup := Option.none
    history := ChatComposerHistory.new
    escape_armed := false
    sent_events := [] }

/-- The first line of the buffer
(`self.textarea.lines().first().map(|s| s.as_str()).unwrap_or("")`). -/
def first_line (c : ChatComposer) : String :=
  (c.textarea.lines.head?).getD ""

/-- Mirrors `set_history_metadata`. -/
def set_history_metadata (c : ChatComposer) (logId : Nat) (entryCount : Nat) : ChatComposer :=
  { c with history := c.history.set_metadata logId entryCount }

/-- Mirrors `on_history_entry_response`: forwards to
`history.on_entry_response(log_id, offset, entry, &mut self.textarea)`. -/
def on_history_entry_response (c : ChatComposer) (logId : Nat) (offset : Nat)
    (entry : Option String) : ChatComposer × Bool :=
  let r := c.history.on_entry_response logId offset entry c.textarea
  ({ c with history := r.1, textarea := r.2.1 }, r.2.2)

/-- Mirrors `handle_input_basic`: forward the event verbatim to the text area's
generic edit-input operation. -/
def handle_input_basic (c : ChatComposer) (i : Input) : ChatComposer × InputResult × Bool :=
  ({ c with textarea := c.textarea.input i }, InputResult.none, true)

/-- Mirrors `handle_key_event_without_popup`: the plain-mode handler — two-stage
escape, history navigation on Up/Down, submission on unmodified Enter,
newline on modified Enter or Ctrl+J, generic editing otherwise. -/
def handle_key_event_without_popup (c : ChatComposer) (i : Input) :
    ChatComposer × InputResult × Bool :=
  if i.key = Key.esc ∧ i.ctrl = false ∧ i.alt = false ∧ i.shift = false then
    if c.escape_armed then
      ({ c with textarea := c.textarea.select_all.cut, escape_armed := false },
        InputResult.none, true)
    else
      ({ c with escape_armed := true }, InputResult.none, true)
  else
    let c := { c with escape_armed := false }
    if i.key = Key.up then
      if c.history.should_handle_navigation c.textarea then
        let r := c.history.navigate_up c.textarea
        if r.2.2 then
          ({ c with history := r.1, textarea := r.2.1 }, InputResult.none, true)
        else
          handle_input_basic { c with history := r.1, textarea := r.2.1 } i
      else
        handle_input_basic c i
    else if i.key = Key.down then
      if c.history.should_handle_navigation c.textarea then
        let r := c.history.navigate_down c.textarea
        if r.2.2 then
          ({ c with history := r.1, textarea := r.2.1 }, InputResult.none, true)
        else
          handle_input_basic { c with history := r.1, textarea := r.2.1 } i
      else
        handle_input_basic c i
    else if i.key = Key.enter ∧ i.shift = false ∧ i.alt = false ∧ i.ctrl = false then
      let text := join_with "\n" c.textarea.lines
      let c := { c with textarea := c.textarea.select_all.cut }
      if text = "" then
        (c, InputResult.none, true)
      else
        ({ c with history := c.history.record_local_submission text },
          InputResult.submitted text, true)
    else if i.key = Key.enter ∨
        (i.key = Key.char 'j' ∧ i.ctrl = true ∧ i.alt = false ∧ i.shift = false) then
      ({ c with textarea := c.textarea.insert_newline }, InputResult.none, true)
    else
      handle_input_basic c i

/-- Mirrors `handle_key_event_with_popup`: the popup-mode handler — Up/Down move
the popup selection, Tab completes the selected command, unmodified Enter
dispatches it (or falls back to the plain handler when nothing is
selected), and everything else falls through to generic editing.  The
guard branch is the defensive no-op taken when no popup is present. -/
def handle_key_event_with_popup (c : ChatComposer) (i : Input) :
    ChatComposer × InputResult × Bool :=
  match c.command_popup with
  | Option.none => (c, InputResult.none, false)
  | Option.some popup =>
    if i.key = Key.up then
      ({ c with command_popup := some popup.move_up }, InputResult.none, true)
    else if i.key = Key.down then
      ({ c with command_popup := some popup.move_down }, InputResult.none, true)
    else if i.key = Key.tab then
      match popup.selected_command with
      | Option.some cmd =>
        let fl := c.first_line
        let starts_with_cmd := starts_with (trim_start fl) ("/" ++ cmd)
        if starts_with_cmd = false then
          ({ c with textarea := (c.textarea.select_all.cut).insert_str ("/" ++ cmd ++ " ") },
            InputResult.none, true)
        else
          (c, InputResult.none, true)
      | Option.none => (c, InputResult.none, true)
    else if i.key = Key.enter ∧ i.shift = false ∧ i.alt = false ∧ i.ctrl = false then
      match popup.selected_command with
      | Option.some cmd =>
        ({ c with sent_events := c.sent_events ++ [cmd]
                  textarea := c.textarea.select_all.cut
                  command_popup := Option.none },
          InputResult.none, true)
      | Option.none => handle_key_event_without_popup c i
    else
      handle_input_basic c i

/-- Mirrors `sync_command_popup`: reconcile popup presence with the first line of
the buffer — create it lazily when the line starts with `/` and feed it
the line, destroy it otherwise. -/
def sync_command_popup (c : ChatComposer) : ChatComposer :=
  let fl := c.first_line
  if starts_with fl "/" then
    let popup := match c.command_popup with
      | Option.some p => p
      | Option.none => CommandPopup.new
    { c with command_popup := some (popup.on_composer_text_change fl) }
  else if c.command_popup.isSome then
    { c with command_popup := Option.none }
  else
    c

/-- Mirrors `handle_key_event`: dispatch on popup presence, then unconditionally
resynchronize the popup. -/
def handle_key_event (c : ChatComposer) (i : Input) : ChatComposer × InputResult × Bool :=
  let r := match c.command_popup with
    | Option.some _ => handle_key_event_with_popup c i
    | Option.none => handle_key_event_without_popup c i
  (sync_command_popup r.1, r.2.1, r.2.2)

/-- Mirrors `calculate_required_height`: buffer rows (at least
`MIN_TEXTAREA_ROWS`) plus `BORDER_LINES` plus the popup's required
height.  The source computes this in `u16` (`rows as u16 + BORDER_LINES +
num_popup_rows`), hence the 16-bit reductions. -/
def calculate_required_height (c : ChatComposer) (area : Rect) : Nat :=
  let rows := c.textarea.lines.length.max MIN_TEXTAREA_ROWS
  let num_popup_rows := match c.command_popup with
    | Option.some popup => popup.calculate_required_height area
    | Option.none => 0
  (rows % 65536 + BORDER_LINES + num_popup_rows) % 65536

/-- Mirrors `is_command_popup_visible`. -/
def is_command_popup_visible (c : ChatComposer) : Bool :=
  c.command_popup.isSome

end ChatComposer

/-! Concrete key events and composer states used by the counterexamples
and witnesses below.  The states reached through `handle_key_event` are
reachable from `ChatComposer.new` by the indicated key sequences. -/

/-- An unmodified Escape key press. -/
def esc_input : Input := ⟨Key.esc, false, false, false⟩

/-- An unmodified Tab key press. -/
def tab_input : Input := ⟨Key.tab, false, false, false⟩

/-- An unmodified Enter key press. -/
def enter_input : Input := ⟨Key.enter, false, false, false⟩

/-- An unmodified Down key press. -/
def down_input : Input := ⟨Key.down, false, false, false⟩

/-- An unmodified character key press. -/
def char_input (c : Char) : Input := ⟨Key.char c, false, false, false⟩

/-- Run a sequence of key events through the composer, keeping the state. -/
def run_keys (c : ChatComposer) (l : List Input) : ChatComposer :=
  l.foldl (fun c i => (c.handle_key_event i).1) c

/-- The reachable state after typing `/` then `a` into a fresh composer:
buffer `"/a"`, command popup visible, escape unarmed. -/
def popup_state : ChatComposer :=
  run_keys ChatComposer.new [char_input '/', char_input 'a']

/-- The reachable state after typing `/clear` then pressing Down (which
selects the `clear` command in the popup). -/
def slash_clear_state : ChatComposer :=
  run_keys ChatComposer.new
    [char_input '/', char_input 'c', char_input 'l', char_input 'e',
     char_input 'a', char_input 'r', down_input]

/-- A plain-mode state: buffer `"hello"`, no popup, escape unarmed. -/
def plain_state : ChatComposer :=
  { textarea := { lines := ["hello"], cursor_row := 0, cursor_col := 5, selection_all := false }
    command_popup := Option.none
    history := ChatComposerHistory.new
    escape_armed := false
    sent_events := [] }

/-- A popup whose selected command is `clear`, paired below with a buffer
whose first line is `"/cl"`. -/
def c3w_popup : CommandPopup :=
  { all_commands := CommandPopup.builtin, matching := ["clear"], sel := some 0, req := fun _ => 1 }

/-- A popup-mode state with `clear` selected and first line `"/cl"`. -/
def c3w_state : ChatComposer :=
  { textarea := { lines := ["/cl"], cursor_row := 0, cursor_col := 3, selection_all := false }
    command_popup := some c3w_popup
    history := ChatComposerHistory.new
    escape_armed := false
    sent_events := [] }

/-- A state whose buffer holds 65536 lines (reachable by 65535 newline
insertions), large enough to overflow the `u16` height computation. -/
def big_state : ChatComposer :=
  { textarea := { lines := List.replicate 65536 "", cursor_row := 0, cursor_col := 0, selection_all := false }
    command_popup := Option.none
    history := ChatComposerHistory.new
    escape_armed := false
    sent_events := [] }

/-- A state with an outstanding history fetch (session 7, offset 1). -/
def hist_state : ChatComposer :=
  { textarea := { lines := ["draft"], cursor_row := 0, cursor_col := 5, selection_all := false }
    command_popup := Option.none
    history := { log_id := some 7, entry_count := 3, local_entries := ["old"], cursor := some 1, fetch_offset := some 1 }
    escape_armed := false
    sent_events := [] }

/-- A fixed screen area used by the height computations. -/
def area0 : Rect := ⟨0, 0, 80, 24⟩

/-- The number of popup rows entering the height computation
(`popup.calculate_required_height(area)` when a popup is present,
`0` otherwise). -/
def popup_rows (c : ChatComposer) (area : Rect) : Nat :=
  match c.command_popup with
  | Option.some popup => popup.calculate_required_height area
  | Option.none => 0

/-! Helper lemmas shared by the claim theorems. -/

open ChatComposer

/-- Popup resynchronization never touches the text area. -/
theorem sync_textarea (c : ChatComposer) :
    (sync_command_popup c).textarea = c.textarea := by
  by_cases h : starts_with c.first_line "/" = true
  · simp [sync_command_popup, h]
  · rw [Bool.not_eq_true] at h
    by_cases h2 : c.command_popup.isSome = true
    · simp [sync_command_popup, h, h2]
    · simp [sync_command_popup, h, h2]

/-- Popup resynchronization never touches the escape-arming flag. -/
theorem sync_escape_armed (c : ChatComposer) :
    (sync_command_popup c).escape_armed = c.escape_armed := by
  by_cases h : starts_with c.first_line "/" = true
  · simp [sync_command_popup, h]
  · rw [Bool.not_eq_true] at h
    by_cases h2 : c.command_popup.isSome = true
    · simp [sync_command_popup, h, h2]
    · simp [sync_command_popup, h, h2]

/-- Popup resynchronization never touches the history navigator. -/
theorem sync_history (c : ChatComposer) :
    (sync_command_popup c).history = c.history := by
  by_cases h : starts_with c.first_line "/" = true
  · simp [sync_command_popup, h]
  · rw [Bool.not_eq_true] at h
    by_cases h2 : c.command_popup.isSome = true
    · simp [sync_command_popup, h, h2]
    · simp [sync_command_popup, h, h2]

/-- Popup resynchronization leaves the first line unchanged. -/
theorem sync_first_line (c : ChatComposer) :
    (sync_command_popup c).first_line = c.first_line := by
  unfold first_line
  rw [sync_textarea]

/-- After popup resynchronization the popup is present exactly when the
first line starts with `/`. -/
theorem sync_isSome (c : ChatComposer) :
    (sync_command_popup c).command_popup.isSome = starts_with c.first_line "/" := by
  by_cases h : starts_with c.first_line "/" = true
  · simp [sync_command_popup, h]
  · rw [Bool.not_eq_true] at h
    by_cases h2 : c.command_popup.isSome = true
    · simp [sync_command_popup, h, h2]
    · simp only [Bool.not_eq_true] at h2
      simp [sync_command_popup, h, h2]

/-- When the first line does not start with `/` and no popup is present,
resynchronization is the identity. -/
theorem sync_id_of_plain (c : ChatComposer)
    (h1 : starts_with c.first_line "/" = false) (h2 : c.command_popup = Option.none) :
    sync_command_popup c = c := by
  simp [sync_command_popup, h1, h2]

/-- Helper: `select_all` followed by `cut` clears the buffer completely. -/
theorem select_all_cut (ta : TextArea) :
    ta.select_all.cut = TextArea.default := by
  simp [TextArea.select_all, TextArea.cut]

/-- With no popup, `handle_key_event` is the plain handler followed by
resynchronization. -/
theorem hke_dispatch_plain (c : ChatComposer) (i : Input)
    (hp : c.command_popup = Option.none) :
    handle_key_event c i =
      (sync_command_popup (handle_key_event_without_popup c i).1,
        (handle_key_event_without_popup c i).2.1,
        (handle_key_event_without_popup c i).2.2) := by
  unfold handle_key_event
  rw [hp]

/-- With a popup, `handle_key_event` is the popup handler followed by
resynchronization. -/
theorem hke_dispatch_popup (c : ChatComposer) (p : CommandPopup) (i : Input)
    (hp : c.command_popup = some p) :
    handle_key_event c i =
      (sync_command_popup (handle_key_event_with_popup c i).1,
        (handle_key_event_with_popup c i).2.1,
        (handle_key_event_with_popup c i).2.2) := by
  unfold handle_key_event
  rw [hp]

/-- The plain handler always reports `redraw_needed = true`. -/
theorem without_popup_redraw (c : ChatComposer) (i : Input) :
    (handle_key_event_without_popup c i).2.2 = true := by
  simp only [handle_key_event_without_popup, handle_input_basic]
  repeat' split
  all_goals rfl

/-- The popup handler reports `redraw_needed = true` whenever a popup is
actually present. -/
theorem with_popup_redraw (c : ChatComposer) (p : CommandPopup) (i : Input)
    (hp : c.command_popup = some p) :
    (handle_key_event_with_popup c i).2.2 = true := by
  unfold handle_key_event_with_popup
  rw [hp]
  repeat' split
  all_goals try rfl
  all_goals try exact without_popup_redraw c i
  all_goals try simp_all [handle_input_basic]
  all_goals (split <;> rfl)

/-- Helper: `handle_key_event` always reports `redraw_needed = true`. -/
theorem handle_key_event_redraw (c : ChatComposer) (i : Input) :
    (handle_key_event c i).2.2 = true := by
  cases hp : c.command_popup with
  | none => rw [hke_dispatch_plain c i hp]; exact without_popup_redraw c i
  | some p => rw [hke_dispatch_popup c p i hp]; exact with_popup_redraw c p i hp

/-- For a key that is not Up, Down, Tab or unmodified Enter, the popup
handler falls through to the generic edit handler. -/
theorem with_popup_fallthrough (c : ChatComposer) (p : CommandPopup) (i : Input)
    (hp : c.command_popup = some p)
    (h1 : ¬i.key = Key.up) (h2 : ¬i.key = Key.down) (h3 : ¬i.key = Key.tab)
    (h4 : ¬(i.key = Key.enter ∧ i.shift = false ∧ i.alt = false ∧ i.ctrl = false)) :
    handle_key_event_with_popup c i = handle_input_basic c i := by
  unfold handle_key_event_with_popup
  rw [hp]
  simp only [if_neg h1, if_neg h2, if_neg h3, if_neg h4]

/-- Unmodified Escape in plain mode with escape unarmed arms the gesture
and touches nothing else. -/
theorem hke_without_esc_unarmed (c : ChatComposer) (h : c.escape_armed = false) :
    handle_key_event_without_popup c esc_input =
      ({ c with escape_armed := true }, InputResult.none, true) := by
  simp [handle_key_event_without_popup, esc_input, h]

/-- Unmodified Escape in plain mode with escape armed clears the buffer
and disarms. -/
theorem hke_without_esc_armed (c : ChatComposer) (h : c.escape_armed = true) :
    handle_key_event_without_popup c esc_input =
      ({ c with textarea := TextArea.default, escape_armed := false }, InputResult.none, true) := by
  simp [handle_key_event_without_popup, esc_input, h, select_all_cut]

/-- C1 — after every `handle_key_event` the command popup is present iff
the first line of the buffer starts with `/` (resynchronization runs
unconditionally and establishes the invariant). -/
theorem c1_popup_presence_invariant (c : ChatComposer) (i : Input) :
    (handle_key_event c i).1.command_popup.isSome = true ↔
      starts_with (handle_key_event c i).1.first_line "/" = true := by
  unfold handle_key_event
  cases hp : c.command_popup <;>
    simp only [sync_isSome, sync_first_line]

/-- C7 — invoking the popup handler with no popup present is a defensive
no-op (`NoSubmission`, `redraw_needed = false`, state unchanged), and
`handle_key_event` itself never reports `redraw_needed = false` (its
dispatch guarantees the defensive branch is unreachable, so that branch
is the only conceivable source of a `false` flag). -/
theorem c7_defensive_branch :
    (∀ (c : ChatComposer) (i : Input), c.command_popup = Option.none →
      handle_key_event_with_popup c i = (c, InputResult.none, false)) ∧
    (∀ (c : ChatComposer) (i : Input), (handle_key_event c i).2.2 = true) := by
  constructor
  · intro c i hp
    unfold handle_key_event_with_popup
    rw [hp]
  · exact handle_key_event_redraw

/-- C7 witness: the defensive branch and the redraw flag at a concrete
popup-free state and key. -/
theorem c7_witness :
    handle_key_event_with_popup plain_state esc_input = (plain_state, InputResult.none, false) ∧
    (handle_key_event plain_state esc_input).2.2 = true :=
  ⟨c7_defensive_branch.1 plain_state esc_input rfl, c7_defensive_branch.2 plain_state esc_input⟩

/-- C10 — every key event processed through `handle_key_event` reports
`redraw_needed = true`: the mode dispatch only runs the popup handler
when a popup is present, and every non-defensive branch of both handlers
(including the generic edit fallback) returns `true`. -/
theorem c10_redraw_needed (c : ChatComposer) (i : Input) :
    (handle_key_event c i).2.2 = true :=
  handle_key_event_redraw c i

/-- C2 counterexample — in the reachable state with buffer `"/a"` (popup
visible), two immediately successive unmodified Escapes leave the
non-empty buffer untouched instead of clearing it: with the popup
visible, Escape falls through to generic editing and never arms. -/
theorem c2_counterexample :
    popup_state.textarea.lines = ["/a"] ∧
    popup_state.command_popup.isSome = true ∧
    join_with "\n" popup_state.textarea.lines ≠ "" ∧
    (handle_key_event (handle_key_event popup_state esc_input).1 esc_input).1.textarea.lines
      = ["/a"] := by
  decide

/-- C2 (amended) — restricted to plain mode (no popup, first line not a
slash command): two immediately successive unmodified Escapes leave the
buffer empty for any non-empty buffer, and a single unmodified Escape
from an unarmed state never changes the buffer content (in any mode). -/
theorem c2_double_escape (c : ChatComposer) :
    (c.command_popup = Option.none → starts_with c.first_line "/" = false →
      join_with "\n" c.textarea.lines ≠ "" →
      (handle_key_event (handle_key_event c esc_input).1 esc_input).1.textarea.lines = [""]) ∧
    (c.escape_armed = false →
      (handle_key_event c esc_input).1.textarea.lines = c.textarea.lines) := by
  constructor
  · intro hp hsl _hne
    cases ha : c.escape_armed
    · rw [hke_dispatch_plain c esc_input hp, hke_without_esc_unarmed c ha]
      rw [sync_id_of_plain { c with escape_armed := true } (by exact hsl) (by exact hp)]
      rw [hke_dispatch_plain { c with escape_armed := true } esc_input (by exact hp)]
      rw [hke_without_esc_armed { c with escape_armed := true } rfl]
      rw [sync_textarea]
      rfl
    · rw [hke_dispatch_plain c esc_input hp, hke_without_esc_armed c ha]
      rw [sync_id_of_plain { c with textarea := TextArea.default, escape_armed := false }
        rfl (by exact hp)]
      rw [hke_dispatch_plain { c with textarea := TextArea.default, escape_armed := false }
        esc_input (by exact hp)]
      rw [hke_without_esc_unarmed _ rfl]
      rw [sync_textarea]
      rfl
  · intro ha
    cases hp : c.command_popup with
    | none =>
      rw [hke_dispatch_plain c esc_input hp, hke_without_esc_unarmed c ha, sync_textarea]
    | some p =>
      rw [hke_dispatch_popup c p esc_input hp,
        with_popup_fallthrough c p esc_input hp (by decide) (by decide) (by decide) (by decide),
        sync_textarea]
      rfl

/-- C2 witness: double Escape clears the concrete plain-mode buffer
`"hello"`, and a single Escape leaves it unchanged. -/
theorem c2_double_escape_witness :
    (handle_key_event (handle_key_event plain_state esc_input).1 esc_input).1.textarea.lines
      = [""] ∧
    (handle_key_event plain_state esc_input).1.textarea.lines = plain_state.textarea.lines :=
  ⟨(c2_double_escape plain_state).1 rfl (by decide) (by decide),
   (c2_double_escape plain_state).2 rfl⟩

/-- C4 counterexample — in the reachable popup-visible state with buffer
`"/a"`, an unmodified Escape does not arm the two-stage escape gesture
(`escape_armed` stays `false`), whereas the same key in a plain-mode
state arms it: the popup fallthrough is not the plain-mode handling. -/
theorem c4_counterexample :
    popup_state.command_popup.isSome = true ∧
    popup_state.escape_armed = false ∧
    (handle_key_event popup_state esc_input).1.escape_armed = false ∧
    (handle_key_event plain_state esc_input).1.escape_armed = true := by
  decide

/-- C4 (amended) — for every key event that is not Up, Down, Tab, or
unmodified Enter, the popup handler forwards the event directly to the
generic edit-input handler (`handle_input_basic`), bypassing history
navigation and the escape-arming logic; in particular an unmodified
Escape received while the popup is visible does not arm the two-stage
escape gesture (`escape_armed` is left unchanged). -/
theorem c4_popup_fallthrough (c : ChatComposer) (p : CommandPopup) (i : Input)
    (hp : c.command_popup = some p)
    (h1 : ¬i.key = Key.up) (h2 : ¬i.key = Key.down) (h3 : ¬i.key = Key.tab)
    (h4 : ¬(i.key = Key.enter ∧ i.shift = false ∧ i.alt = false ∧ i.ctrl = false)) :
    handle_key_event_with_popup c i = handle_input_basic c i ∧
    (handle_key_event c i).1.escape_armed = c.escape_armed := by
  refine ⟨with_popup_fallthrough c p i hp h1 h2 h3 h4, ?_⟩
  rw [hke_dispatch_popup c p i hp, sync_escape_armed,
    with_popup_fallthrough c p i hp h1 h2 h3 h4]
  rfl

/-- C4 witness: the fallthrough equality and escape preservation at a
concrete popup-mode state under Escape. -/
theorem c4_popup_fallthrough_witness :
    handle_key_event_with_popup c3w_state esc_input = handle_input_basic c3w_state esc_input ∧
    (handle_key_event c3w_state esc_input).1.escape_armed = c3w_state.escape_armed :=
  c4_popup_fallthrough c3w_state c3w_popup esc_input rfl (by decide) (by decide) (by decide)
    (by decide)

/-- Helper: `split_lines_chars` never produces the empty list. -/
theorem split_lines_chars_ne_nil (l : List Char) : split_lines_chars l ≠ [] := by
  cases l with
  | nil => simp [split_lines_chars]
  | cons c rest =>
    unfold split_lines_chars
    by_cases h : c = '\n'
    · simp [h]
    · rw [if_neg h]
      cases split_lines_chars rest <;> simp

/-- Helper: `split_lines` never produces the empty list. -/
theorem split_lines_ne_nil (s : String) : split_lines s ≠ [] := by
  unfold split_lines
  intro h
  exact split_lines_chars_ne_nil s.data (List.map_eq_nil_iff.mp h)

/-- Dropping the last element and re-appending it reconstructs a
non-empty list (`getLastD` version). -/
theorem dropLast_append_getLastD {α : Type} (a : α) (l : List α) (d : α) :
    (a :: l).dropLast ++ [(a :: l).getLastD d] = a :: l := by
  show (a :: l).dropLast ++ [(a :: l).getLast (fun h => List.noConfusion h)] = a :: l
  exact List.dropLast_concat_getLast (List.cons_ne_nil a l)

/-- Inserting a string into the freshly cleared text area produces
exactly its line decomposition. -/
theorem insert_str_default (s : String) :
    (TextArea.default.insert_str s).lines = split_lines s := by
  unfold TextArea.insert_str
  cases h : split_lines s with
  | nil => exact absurd h (split_lines_ne_nil s)
  | cons p rest =>
    cases rest with
    | nil =>
      simp [TextArea.default, TextArea.current_line]
    | cons q t =>
      simp [TextArea.default, TextArea.current_line]
      exact dropLast_append_getLastD q t ""

/-- The Tab branch of the popup handler, as a closed-form equation. -/
theorem with_popup_tab (c : ChatComposer) (p : CommandPopup) (cmd : String)
    (hp : c.command_popup = some p) (hs : p.selected_command = some cmd) :
    handle_key_event_with_popup c tab_input =
      (if starts_with (trim_start c.first_line) ("/" ++ cmd) = false then
        ({ c with textarea := (c.textarea.select_all.cut).insert_str ("/" ++ cmd ++ " ") },
          InputResult.none, true)
      else (c, InputResult.none, true)) := by
  simp only [handle_key_event_with_popup, hp, hs, tab_input]
  simp

/-- C3 counterexample — in the reachable state with buffer `"/clear"`
and the command `clear` selected, Tab leaves the buffer unchanged even
though the first line is `"/clear"`, not `"/clear "`: the code only
checks that the trimmed first line starts with `/clear`, not that it
equals `"/clear "`. -/
theorem c3_counterexample :
    (slash_clear_state.command_popup.map CommandPopup.selected_command
      = some (some "clear")) ∧
    slash_clear_state.first_line = "/clear" ∧
    (handle_key_event slash_clear_state tab_input).1.textarea.lines
      = slash_clear_state.textarea.lines ∧
    slash_clear_state.first_line ≠ "/clear " := by
  refine ⟨?_, ?_, ?_, ?_⟩ <;> decide

/-- C3 (amended) — while the popup is visible with command `cmd`
selected, Tab leaves the buffer unchanged iff the first line, after
trimming leading whitespace, already starts with `/cmd`; otherwise the
whole buffer content is replaced by `/cmd ` (its line decomposition —
a single line when the command name contains no newline).  Tab always
reports `NoSubmission` with `redraw_needed = true`. -/
theorem c3_tab_completion (c : ChatComposer) (p : CommandPopup) (cmd : String)
    (hp : c.command_popup = some p) (hs : p.selected_command = some cmd) :
    (handle_key_event c tab_input).2.1 = InputResult.none ∧
    (handle_key_event c tab_input).2.2 = true ∧
    (starts_with (trim_start c.first_line) ("/" ++ cmd) = true →
      (handle_key_event c tab_input).1.textarea = c.textarea) ∧
    (starts_with (trim_start c.first_line) ("/" ++ cmd) = false →
      (handle_key_event c tab_input).1.textarea.lines = split_lines ("/" ++ cmd ++ " ")) := by
  rw [hke_dispatch_popup c p tab_input hp, with_popup_tab c p cmd hp hs]
  by_cases hsw : starts_with (trim_start c.first_line) ("/" ++ cmd) = true
  · rw [if_neg (by simp [hsw])]
    refine ⟨rfl, rfl, fun _ => sync_textarea c, fun hfalse => absurd hfalse (by simp [hsw])⟩
  · rw [Bool.not_eq_true] at hsw
    rw [if_pos hsw]
    refine ⟨rfl, rfl, fun htrue => absurd htrue (by simp [hsw]), fun _ => ?_⟩
    rw [sync_textarea]
    show ((c.textarea.select_all.cut).insert_str ("/" ++ cmd ++ " ")).lines
      = split_lines ("/" ++ cmd ++ " ")
    rw [select_all_cut, insert_str_default]

/-- C3 witness: in the popup-mode state with first line `"/cl"` and
`clear` selected, Tab replaces the buffer with the single line
`"/clear "`. -/
theorem c3_tab_completion_witness :
    starts_with (trim_start c3w_state.first_line) ("/" ++ "clear") = false ∧
    (handle_key_event c3w_state tab_input).1.textarea.lines
      = split_lines ("/" ++ "clear" ++ " ") ∧
    split_lines ("/" ++ "clear" ++ " ") = ["/clear "] :=
  ⟨by decide,
   (c3_tab_completion c3w_state c3w_popup "clear" rfl (by decide)).2.2.2 (by decide),
   by decide⟩

/-- Unmodified Enter in plain mode, as a closed-form equation. -/
theorem hke_without_enter (c : ChatComposer) :
    handle_key_event_without_popup c enter_input =
      (if join_with "\n" c.textarea.lines = "" then
        ({ c with escape_armed := false, textarea := TextArea.default }, InputResult.none, true)
      else
        ({ c with
            escape_armed := false
            textarea := TextArea.default
            history := c.history.record_local_submission (join_with "\n" c.textarea.lines) },
          InputResult.submitted (join_with "\n" c.textarea.lines), true)) := by
  simp only [handle_key_event_without_popup, enter_input]
  simp [select_all_cut]

/-- C5 — in plain mode an unmodified Enter clears the buffer and reports
a redraw; when the joined buffer text was empty it reports
`NoSubmission` and leaves the history untouched, otherwise it records
exactly that text as a new local history entry (resetting the cursor)
and reports `Submitted` of that text. -/
theorem c5_plain_enter (c : ChatComposer) (hp : c.command_popup = Option.none) :
    (handle_key_event c enter_input).1.textarea.lines = [""] ∧
    (handle_key_event c enter_input).2.2 = true ∧
    (join_with "\n" c.textarea.lines = "" →
      (handle_key_event c enter_input).2.1 = InputResult.none ∧
      (handle_key_event c enter_input).1.history = c.history) ∧
    (join_with "\n" c.textarea.lines ≠ "" →
      (handle_key_event c enter_input).2.1
        = InputResult.submitted (join_with "\n" c.textarea.lines) ∧
      (handle_key_event c enter_input).1.history.local_entries
        = c.history.local_entries ++ [join_with "\n" c.textarea.lines] ∧
      (handle_key_event c enter_input).1.history.cursor = Option.none) := by
  rw [hke_dispatch_plain c enter_input hp, hke_without_enter c]
  by_cases ht : join_with "\n" c.textarea.lines = ""
  · rw [if_pos ht]
    refine ⟨?_, rfl, fun _ => ⟨rfl, ?_⟩, fun hne => absurd ht hne⟩
    · rw [sync_textarea]
      rfl
    · rw [sync_history]
  · rw [if_neg ht]
    refine ⟨?_, rfl, fun heq => absurd heq ht, fun _ => ⟨rfl, ?_, ?_⟩⟩
    · rw [sync_textarea]
      rfl
    · rw [sync_history]
      rfl
    · rw [sync_history]
      rfl

/-- C5 witness: Enter on the concrete plain-mode buffer `"hello"`
submits `"hello"`, records it in local history and clears the buffer. -/
theorem c5_plain_enter_witness :
    (handle_key_event plain_state enter_input).1.textarea.lines = [""] ∧
    (handle_key_event plain_state enter_input).2.1 = InputResult.submitted "hello" ∧
    (handle_key_event plain_state enter_input).1.history.local_entries = ["hello"] :=
  ⟨(c5_plain_enter plain_state rfl).1,
   ((c5_plain_enter plain_state rfl).2.2.2 (by decide)).1,
   ((c5_plain_enter plain_state rfl).2.2.2 (by decide)).2.1⟩

/-- Unmodified Escape in plain mode, as a closed-form equation. -/
theorem hke_without_esc (c : ChatComposer) (i : Input)
    (h : i.key = Key.esc ∧ i.ctrl = false ∧ i.alt = false ∧ i.shift = false) :
    handle_key_event_without_popup c i =
      (if c.escape_armed then
        ({ c with textarea := TextArea.default, escape_armed := false }, InputResult.none, true)
      else
        ({ c with escape_armed := true }, InputResult.none, true)) := by
  simp only [handle_key_event_without_popup]
  rw [if_pos h]
  by_cases ha : c.escape_armed = true
  · simp [ha, select_all_cut]
  · simp [ha]

/-- Any key other than an unmodified Escape resets `escape_armed` in the
plain handler before any further handling. -/
theorem without_popup_escape_reset (c : ChatComposer) (i : Input)
    (h : ¬(i.key = Key.esc ∧ i.ctrl = false ∧ i.alt = false ∧ i.shift = false)) :
    (handle_key_event_without_popup c i).1.escape_armed = false := by
  simp only [handle_key_event_without_popup, handle_input_basic]
  rw [if_neg h]
  repeat' split
  all_goals rfl

/-- C6 — in plain mode, after `handle_key_event` the escape-arming flag
is `true` exactly when the key was an unmodified Escape delivered in an
unarmed state: every other key resets the flag before any further
handling, so the arm window is exactly one keystroke wide. -/
theorem c6_escape_arm_window (c : ChatComposer) (i : Input)
    (hp : c.command_popup = Option.none) :
    ((handle_key_event c i).1.escape_armed = true ↔
      ((i.key = Key.esc ∧ i.ctrl = false ∧ i.alt = false ∧ i.shift = false) ∧
        c.escape_armed = false)) := by
  rw [hke_dispatch_plain c i hp, sync_escape_armed]
  by_cases hesc : i.key = Key.esc ∧ i.ctrl = false ∧ i.alt = false ∧ i.shift = false
  · rw [hke_without_esc c i hesc]
    by_cases ha : c.escape_armed = true
    · rw [if_pos ha]
      simp [ha, hesc]
    · rw [if_neg ha]
      rw [Bool.not_eq_true] at ha
      simp [ha, hesc]
  · rw [without_popup_escape_reset c i hesc]
    simp [hesc]

/-- C6 witness: the arm-window characterization at a concrete plain
state under the character key `x`. -/
theorem c6_escape_arm_window_witness :
    ((handle_key_event plain_state (char_input 'x')).1.escape_armed = true ↔
      (((char_input 'x').key = Key.esc ∧ (char_input 'x').ctrl = false ∧
        (char_input 'x').alt = false ∧ (char_input 'x').shift = false) ∧
        plain_state.escape_armed = false)) :=
  c6_escape_arm_window plain_state (char_input 'x') rfl

/-- Helper: `calculate_required_height` in terms of `popup_rows`. -/
theorem calc_height_eq (c : ChatComposer) (area : Rect) :
    c.calculate_required_height area =
      ((c.textarea.lines.length.max MIN_TEXTAREA_ROWS) % 65536 + BORDER_LINES
        + popup_rows c area) % 65536 := by
  unfold ChatComposer.calculate_required_height popup_rows
  cases c.command_popup <;> rfl

/-- C8 counterexample — with 65536 buffer lines the `u16` cast wraps:
the computed height is `2`, not the claimed `65536 + 2 = 65538`. -/
theorem c8_counterexample :
    big_state.calculate_required_height area0 = 2 ∧
    big_state.textarea.lines.length.max MIN_TEXTAREA_ROWS + BORDER_LINES
      + popup_rows big_state area0 = 65538 ∧
    (2 : Nat) ≠ 65538 := by
  have hlen : big_state.textarea.lines.length = 65536 := by
    show (List.replicate 65536 "").length = 65536
    exact List.length_replicate 65536 ""
  have hpr : popup_rows big_state area0 = 0 := rfl
  have hmax : big_state.textarea.lines.length.max MIN_TEXTAREA_ROWS = 65536 := by
    rw [hlen]
    decide
  refine ⟨?_, ?_, by norm_num⟩
  · rw [calc_height_eq, hmax, hpr]
    simp only [BORDER_LINES]
  · rw [hmax, hpr]
    decide

/-- C8 (amended) — as long as the total fits in 16 bits (as it does for
every realistic buffer and popup), `calculate_required_height` equals
the number of buffer lines (at least 1) plus the border allowance of 2
plus the popup's reported height for the area; under the same bound it
is monotonically non-decreasing in the number of buffer lines, and
adding a popup never decreases it. -/
theorem c8_required_height :
    (∀ (c : ChatComposer) (area : Rect),
      c.textarea.lines.length.max MIN_TEXTAREA_ROWS + BORDER_LINES + popup_rows c area < 65536 →
      c.calculate_required_height area =
        c.textarea.lines.length.max MIN_TEXTAREA_ROWS + BORDER_LINES + popup_rows c area) ∧
    (∀ (c c2 : ChatComposer) (area : Rect),
      c2.command_popup = c.command_popup →
      c.textarea.lines.length ≤ c2.textarea.lines.length →
      c2.textarea.lines.length.max MIN_TEXTAREA_ROWS + BORDER_LINES + popup_rows c2 area
        < 65536 →
      c.calculate_required_height area ≤ c2.calculate_required_height area) ∧
    (∀ (c : ChatComposer) (p : CommandPopup) (area : Rect),
      c.command_popup = Option.none →
      c.textarea.lines.length.max MIN_TEXTAREA_ROWS + BORDER_LINES
        + p.calculate_required_height area < 65536 →
      c.calculate_required_height area ≤
        ChatComposer.calculate_required_height { c with command_popup := some p } area) := by
  refine ⟨fun c area h => ?_, fun c c2 area hpop hlen h => ?_, fun c p area hp h => ?_⟩
  · rw [calc_height_eq]
    simp only [MIN_TEXTAREA_ROWS, BORDER_LINES] at h ⊢
    omega
  · rw [calc_height_eq, calc_height_eq]
    have hpr : popup_rows c2 area = popup_rows c area := by
      unfold popup_rows
      rw [hpop]
    rw [hpr] at h
    simp only [MIN_TEXTAREA_ROWS, BORDER_LINES] at h hlen ⊢
    rw [hpr]
    have hm : c.textarea.lines.length.max 1 ≤ c2.textarea.lines.length.max 1 :=
      max_le_max hlen (Nat.le_refl 1)
    omega
  · rw [calc_height_eq, calc_height_eq]
    have h0 : popup_rows c area = 0 := by
      unfold popup_rows
      rw [hp]
    have h1 : popup_rows { c with command_popup := some p } area
        = p.calculate_required_height area := rfl
    rw [h0, h1]
    show (c.textarea.lines.length.max MIN_TEXTAREA_ROWS % 65536 + BORDER_LINES + 0) % 65536
      ≤ (c.textarea.lines.length.max MIN_TEXTAREA_ROWS % 65536 + BORDER_LINES
        + p.calculate_required_height area) % 65536
    simp only [MIN_TEXTAREA_ROWS, BORDER_LINES] at h ⊢
    omega

/-- C8 witness: concrete heights — `3` for a one-line popup-free buffer;
adding a line or a popup does not decrease the height. -/
theorem c8_required_height_witness :
    plain_state.calculate_required_height area0 = 3 ∧
    plain_state.calculate_required_height area0
      ≤ ChatComposer.calculate_required_height { plain_state with
          textarea := { lines := ["hello", "world"], cursor_row := 1, cursor_col := 5, selection_all := false } } area0 ∧
    plain_state.calculate_required_height area0 ≤
      ChatComposer.calculate_required_height { plain_state with
        command_popup := some c3w_popup } area0 := by
  refine ⟨?_, ?_, ?_⟩
  · rw [c8_required_height.1 plain_state area0 (by decide)]
    decide
  · exact c8_required_height.2.1 plain_state _ area0 rfl (by decide) (by decide)
  · exact c8_required_height.2.2 plain_state c3w_popup area0 rfl (by decide)

/-- C9 — a history-entry response whose session identifier or offset
does not match the outstanding request leaves the buffer unchanged and
returns `false` (not applied); an in-match response with no entry also
leaves the buffer unchanged. -/
theorem c9_stale_history_response (c : ChatComposer) (logId offset : Nat)
    (entry : Option String) :
    (¬(c.history.log_id = some logId ∧ c.history.fetch_offset = some offset) →
      (c.on_history_entry_response logId offset entry).1.textarea = c.textarea ∧
      (c.on_history_entry_response logId offset entry).2 = false) ∧
    (entry = Option.none →
      (c.on_history_entry_response logId offset entry).1.textarea = c.textarea) := by
  unfold ChatComposer.on_history_entry_response ChatComposerHistory.on_entry_response
  constructor
  · intro h
    rw [if_neg h]
    exact ⟨rfl, rfl⟩
  · intro he
    subst he
    by_cases h : c.history.log_id = some logId ∧ c.history.fetch_offset = some offset
    · rw [if_pos h]
    · rw [if_neg h]

/-- C9 witness: at the concrete state awaiting (session 7, offset 1), a
response for session 8 is dropped with the buffer unchanged, and an
in-match response carrying no entry also leaves the buffer unchanged. -/
theorem c9_stale_history_response_witness :
    ((hist_state.on_history_entry_response 8 1 (some "text")).1.textarea
        = hist_state.textarea ∧
      (hist_state.on_history_entry_response 8 1 (some "text")).2 = false) ∧
    (hist_state.on_history_entry_response 7 1 Option.none).1.textarea = hist_state.textarea :=
  ⟨(c9_stale_history_response hist_state 8 1 (some "text")).1 (by decide),
   (c9_stale_history_response hist_state 7 1 Option.none).2 rfl⟩

end ChatComposerModel
